import Mathlib

/-!
Verification of the monitoring lifecycle controller of `selfveillance`
(`src/meadow/ui/menubar_app.py`, class `MenubarApp`), shallowly embedded in Lean.

The controller's mutable state (`is_monitoring`, `title`, `config`, and the set of
launched background-cycle threads) is modelled as an explicit record; each Python
method becomes a state-passing Lean function, and file-system interaction is made
explicit (the read result is an argument, writes are returned).  The background
cycle itself lives in `meadow.core.monitor` (outside the embedded file) and is
modelled from the spec where noted.
-/

namespace Meadow

/-- Embeds the configuration document (`config.json`).  The controller treats it as
an opaque, structurally comparable document (`new_config != self.config`); it reads
`notes_dir` and the monitoring interval.  Structural equality on the record models
Python dict equality. -/
structure Config where
  interval : Nat
  notes_dir : String
deriving DecidableEq, Repr

/-- The possible states of the config file on disk as seen by one `open`+`json.load`:
present with valid JSON, or present but malformed (raises `json.JSONDecodeError`).
Absence (`FileNotFoundError`) is modelled by `Option.none` around this type. -/
inductive FileContent where
  | validConfig (c : Config)
  | malformed
deriving DecidableEq, Repr

/-- Errors that `setup_config` (lines 43-59) can raise:
`configMissing` is the `RuntimeError("Configuration not found. Please start the web
viewer first.")` raised on `FileNotFoundError`; `parseError` is the uncaught
`json.JSONDecodeError` propagating out of `json.load`. -/
inductive SetupError where
  | configMissing
  | parseError
deriving DecidableEq, Repr

/-- The user-actionable message carried by the `configMissing` error (line 59). -/
def configMissingMsg : String :=
  "Configuration not found. Please start the web viewer first."

/-- Embeds `setup_config` (lines 54-59): `open(self.config_path)` + `json.load(f)`;
`FileNotFoundError` is caught and re-raised as the distinct `RuntimeError`
(`configMissing`); a `json.JSONDecodeError` on malformed content is not caught and
propagates (`parseError`).  `file` is the state of the config file at the canonical
path: `none` = absent, `some` = present with the given content. -/
def setup_config (file : Option FileContent) : Except SetupError Config :=
  match file with
  | none => Except.error SetupError.configMissing
  | some FileContent.malformed => Except.error SetupError.parseError
  | some (FileContent.validConfig c) => Except.ok c

/-- The idle menubar icon, `"📸"` (lines 28, 145, 175). -/
def idleTitle : String := "📸"

/-- The active-monitoring menubar icon, `"👁️"` (line 168). -/
def activeTitle : String := "👁️"

/-- The transient busy indicator set by `take_screenshot_and_analyze` (line 137). -/
def analyzingTitle : String := "📸 Analyzing..."

/-- Modelled from the spec: the phase of one background-cycle thread of
`meadow.core.monitor.monitoring_loop` (the loop body is outside the embedded file;
only its call site, line 110, passing the live flag `lambda: self.is_monitoring`,
is in it).  Per the spec's background-cycle algorithm the loop is:
check the Running flag at the loop top (terminate if false), sleep a full interval
(the design notes record that the source sleeps with a plain blocking sleep and a
polled boolean, re-checking only at wake), do one capture/analyze/post-process
work step, repeat. -/
inductive CyclePhase where
  | atCheck
  | sleeping
  | working
  | done
deriving DecidableEq, Repr

/-- The controller state of `MenubarApp`: the `is_monitoring` flag, the menubar
`title` string, the in-memory `config`, and one entry per background-cycle thread
launched by `threading.Thread(target=self.monitoring_loop).start()`, carrying the
phase that thread is currently in (`done` = the thread has returned). -/
structure AppState where
  is_monitoring : Bool
  title : String
  config : Config
  cycles : List CyclePhase
deriving DecidableEq, Repr

/-- Embeds `start_monitoring` (lines 163-169): if not `is_monitoring`, set the flag,
set the active icon, and launch one new background-cycle thread (which begins at
its loop-top check); otherwise do nothing. -/
def start_monitoring (s : AppState) : AppState :=
  if s.is_monitoring then s
  else { s with
          is_monitoring := true
          title := activeTitle
          cycles := s.cycles ++ [CyclePhase.atCheck] }

/-- Embeds `stop_monitoring` (lines 171-175): unconditionally clear the flag and
set the idle icon.  It never raises and touches nothing else. -/
def stop_monitoring (s : AppState) : AppState :=
  { s with is_monitoring := false, title := idleTitle }

/-- Embeds `check_config_changes` (lines 95-106): re-read the config file; on
`FileNotFoundError` or `json.JSONDecodeError` do nothing (`pass`); on a valid read,
if the new document differs structurally from the in-memory one adopt it, and if
monitoring, call `stop_monitoring` then `start_monitoring`. -/
def check_config_changes (file : Option FileContent) (s : AppState) : AppState :=
  match file with
  | none => s
  | some FileContent.malformed => s
  | some (FileContent.validConfig new_config) =>
    if new_config ≠ s.config then
      let s1 : AppState := { s with config := new_config }
      if s1.is_monitoring then start_monitoring (stop_monitoring s1) else s1
    else s

/-- Modelled from the spec: one scheduled step of a background-cycle thread, given
the value of the `is_monitoring` flag it observes.  At the loop top it terminates
if the flag is false, else enters its interval sleep; the sleep is a plain blocking
sleep, so waking is a single step that cannot observe the flag mid-sleep; after the
work step it returns to the loop top. -/
def cycleStep (flag : Bool) : CyclePhase → CyclePhase
  | CyclePhase.atCheck => if flag then CyclePhase.sleeping else CyclePhase.done
  | CyclePhase.sleeping => CyclePhase.working
  | CyclePhase.working => CyclePhase.atCheck
  | CyclePhase.done => CyclePhase.done

/-- An interleaving event of the whole app: one step of background-cycle thread `i`,
an external `start_monitoring` or `stop_monitoring` click, or one firing of the
5-second config poll timer with the given read result. -/
inductive SysAction where
  | cycle (i : Nat)
  | start
  | stop
  | poll (file : Option FileContent)
deriving DecidableEq, Repr

/-- Small-step interpreter for one interleaving event on the controller state. -/
def sysStep (a : SysAction) (s : AppState) : AppState :=
  match a with
  | SysAction.cycle i =>
      { s with cycles :=
          s.cycles.set i (cycleStep s.is_monitoring (s.cycles.getD i CyclePhase.done)) }
  | SysAction.start => start_monitoring s
  | SysAction.stop => stop_monitoring s
  | SysAction.poll file => check_config_changes file s

/-- Run a concrete interleaving (a schedule of events) from a state. -/
def run (tr : List SysAction) (s : AppState) : AppState :=
  tr.foldl (fun s a => sysStep a s) s

/-- Number of background-cycle threads that have not terminated. -/
def activeCount (s : AppState) : Nat :=
  (s.cycles.filter (fun p => p ≠ CyclePhase.done)).length

/-- Number of background-cycle threads currently in their work step. -/
def workingCount (s : AppState) : Nat :=
  (s.cycles.filter (fun p => p = CyclePhase.working)).length

/-- An analysis result as the controller sees it: a JSON record whose only field the
controller reads is `research_summary` (absent key modelled as `none`). -/
structure AnalysisResult where
  research_summary : Option String
deriving DecidableEq, Repr

/-- Python truthiness of `analysis_result.get('research_summary')`: `None` and the
empty string are falsy. -/
def summaryTruthy : Option String → Bool
  | none => false
  | some s => s ≠ ""

/-- Embeds `process_screenshot_analysis` (lines 113-116), returning whether
`process_analysis_result` is invoked: `if analysis_result and
analysis_result.get('research_summary')`.  (A present-but-empty dict is falsy in
Python but its `get` is `None` anyway, so the conjunction is unchanged by modelling
presence as `some`.) -/
def process_screenshot_analysis (analysis_result : Option AnalysisResult) : Bool :=
  match analysis_result with
  | none => false
  | some r => summaryTruthy r.research_summary

/-- Outcome of the `analyze_and_log_screenshot` collaborator call inside the
`analyze_and_restore` thread body (lines 141-145): it returns a (possibly absent)
result, or raises. -/
inductive AnalysisOutcome where
  | ok (result : Option AnalysisResult)
  | raised
deriving DecidableEq, Repr

/-- Observable effects of one `take_screenshot_and_analyze` invocation. -/
structure OneOffEffects where
  busyTitle : String
  captures : Nat
  postProcessed : Bool
deriving DecidableEq, Repr

/-- Embeds `take_screenshot_and_analyze` (lines 134-147): set the busy title, take
exactly one screenshot, then in a worker thread analyze it; if the result is truthy,
run `process_screenshot_analysis`; finally set `self.title = "📸"`.  There is no
try/finally, so if `analyze_and_log_screenshot` raises, the thread dies with the
busy title still set.  Returns the state after the worker thread ends together
with the effects. -/
def take_screenshot_and_analyze (s : AppState) (outcome : AnalysisOutcome) :
    AppState × OneOffEffects :=
  let busy : AppState := { s with title := analyzingTitle }
  match outcome with
  | AnalysisOutcome.raised =>
      (busy, { busyTitle := analyzingTitle, captures := 1, postProcessed := false })
  | AnalysisOutcome.ok r =>
      let post :=
        match r with
        | none => false
        | some res => process_screenshot_analysis (some res)
      ({ busy with title := idleTitle },
       { busyTitle := analyzingTitle, captures := 1, postProcessed := post })

/-- The JSON text `json.dump([], f)` writes when initializing a day's log file. -/
def emptyLogJson : String := "[]"

/-- Embeds the path construction of `get_current_log_path` (line 64):
`os.path.join(self.log_dir, 'log_{today}.json')` with `today` the `%Y%m%d` date. -/
def log_path (log_dir today : String) : String :=
  log_dir ++ "/log_" ++ today ++ ".json"

/-- Embeds `get_current_log_path` (lines 61-71) against an explicit file system
(path ↦ content): compute the day-keyed path; if no file exists there, write an
empty JSON list; return the path and the resulting file system. -/
def get_current_log_path (log_dir today : String) (fs : String → Option String) :
    String × (String → Option String) :=
  let p := log_path log_dir today
  match fs p with
  | none => (p, fun q => if q = p then some emptyLogJson else fs q)
  | some _ => (p, fs)

/-- Modelled from the spec: the timing skeleton of
`meadow.core.monitor.monitoring_loop` (outside the embedded file).  Per the spec's
background-cycle algorithm and its design notes (cooperative cancellation via a
polled boolean, a plain blocking sleep re-checked only at wake), the loop checks
the flag at time `t`, and if still running sleeps a full `interval` seconds before
checking again; the work step is taken as instantaneous, which only shortens runs.
A stop request issued at absolute time `stopAt` makes the flag read false from then
on.  Returns the absolute time at which the thread returns, or `none` if `fuel`
loop iterations did not reach it. -/
def loopTermination (fuel interval stopAt t : Nat) : Option Nat :=
  match fuel with
  | 0 => none
  | Nat.succ fuel =>
    if stopAt ≤ t then some t
    else loopTermination fuel interval stopAt (t + interval)

/-- A concrete configuration (interval 60s). -/
def cfgA : Config := { interval := 60, notes_dir := "notes" }

/-- A second, structurally different configuration (interval 30s). -/
def cfgB : Config := { interval := 30, notes_dir := "notes" }

/-- A freshly constructed controller holding `cfgA`: not monitoring, idle icon,
no background-cycle thread launched yet. -/
def freshApp : AppState :=
  { is_monitoring := false, title := idleTitle, config := cfgA, cycles := [] }

/-- A concrete interleaving: the user clicks Start (thread 0 launches), thread 0
passes its loop-top check and enters its interval sleep, the 5-second config poll
sees the edited file `cfgB` and restarts (launching thread 1) while thread 0 is
still inside its uninterruptible sleep, thread 1 passes its check and sleeps, then
both threads wake into their work steps. -/
def driftTrace : List SysAction :=
  [SysAction.start,
   SysAction.cycle 0,
   SysAction.poll (some (FileContent.validConfig cfgB)),
   SysAction.cycle 1,
   SysAction.cycle 0,
   SysAction.cycle 1]

/-- C2: `Start()` is idempotent: if the controller is already Running, `Start()`
changes no state and launches no new background cycle; otherwise it sets the state
to Running, sets the title to the active indicator, and launches exactly one
background cycle (one more active cycle thread), so that two consecutive `Start()`
calls produce exactly one active background cycle. -/
theorem start_monitoring_idempotent (s : AppState) :
    (s.is_monitoring = true → start_monitoring s = s) ∧
    (s.is_monitoring = false →
      start_monitoring s =
        { s with is_monitoring := true, title := activeTitle,
                 cycles := s.cycles ++ [CyclePhase.atCheck] } ∧
      activeCount (start_monitoring s) = activeCount s + 1) ∧
    start_monitoring (start_monitoring s) = start_monitoring s := by
  cases h : s.is_monitoring <;>
    simp [start_monitoring, h, activeCount, List.filter_append]

/-- Witness for C2: starting the fresh (stopped) controller twice yields exactly
one active background cycle. -/
theorem start_monitoring_idempotent_witness :
    freshApp.is_monitoring = false ∧
    activeCount (start_monitoring (start_monitoring freshApp)) = 1 := by
  refine ⟨rfl, ?_⟩
  have h := start_monitoring_idempotent freshApp
  rw [h.2.2, (h.2.1 rfl).1]
  decide

/-- C3: `Stop()` unconditionally sets the monitoring state to Stopped and the title
to the idle indicator, for every prior state, touching nothing else and raising no
error (it is a total function); in particular, stopping when already Stopped leaves
the monitoring state unchanged. -/
theorem stop_monitoring_unconditional (s : AppState) :
    stop_monitoring s = { s with is_monitoring := false, title := idleTitle } ∧
    (stop_monitoring s).config = s.config ∧
    (stop_monitoring s).cycles = s.cycles ∧
    (s.is_monitoring = false → (stop_monitoring s).is_monitoring = s.is_monitoring) ∧
    stop_monitoring (stop_monitoring s) = stop_monitoring s := by
  refine ⟨rfl, rfl, rfl, fun h => by rw [stop_monitoring, h], rfl⟩

/-- Witness for C3: stopping the fresh (already stopped) controller keeps the
monitoring state Stopped and the idle title. -/
theorem stop_monitoring_unconditional_witness :
    (stop_monitoring freshApp).is_monitoring = freshApp.is_monitoring ∧
    (stop_monitoring freshApp).title = idleTitle :=
  ⟨(stop_monitoring_unconditional freshApp).2.2.2.1 rfl,
   by rw [(stop_monitoring_unconditional freshApp).1]⟩

/-- C4: constructing the controller when the configuration file is absent fails
with the distinct `configMissing` error (not a generic I/O error: the
`FileNotFoundError` is caught and replaced), and without a valid configuration
`setup_config` never succeeds. -/
theorem setup_config_missing (file : Option FileContent) :
    (file = none → setup_config file = Except.error SetupError.configMissing) ∧
    (∀ c, setup_config file = Except.ok c → file = some (FileContent.validConfig c)) := by
  constructor
  · rintro rfl; rfl
  · intro c h
    cases file with
    | none => simp [setup_config] at h
    | some fc =>
      cases fc with
      | malformed => simp [setup_config] at h
      | validConfig c0 => simp [setup_config] at h; simp [h]

/-- Witness for C4: with no file on disk, construction fails with `configMissing`. -/
theorem setup_config_missing_witness :
    setup_config none = Except.error SetupError.configMissing :=
  (setup_config_missing none).1 rfl

/-- C10: if the configuration file exists but is malformed, the constructor fails
with the propagated parse error, which is distinct from `configMissing`; only
absence of the file maps to `configMissing`. -/
theorem setup_config_malformed_distinct (file : Option FileContent)
    (h : setup_config file = Except.error SetupError.configMissing) :
    setup_config (some FileContent.malformed) = Except.error SetupError.parseError ∧
    SetupError.parseError ≠ SetupError.configMissing ∧
    file = none := by
  refine ⟨rfl, by decide, ?_⟩
  cases file with
  | none => rfl
  | some fc => cases fc <;> simp [setup_config] at h

/-- Witness for C10, at the only input whose error is `configMissing`. -/
theorem setup_config_malformed_distinct_witness :
    setup_config (some FileContent.malformed) = Except.error SetupError.parseError ∧
    SetupError.parseError ≠ SetupError.configMissing :=
  ⟨(setup_config_malformed_distinct none rfl).1,
   (setup_config_malformed_distinct none rfl).2.1⟩

/-- C5: the drift poll adopts the on-disk configuration as current exactly when it
differs structurally from the in-memory one, and for every read failure (missing
file or malformed content) it behaves as no change: no error propagates and the
whole controller state (configuration and monitoring state included) is unchanged. -/
theorem check_config_changes_spec (file : Option FileContent) (s : AppState) :
    ((file = none ∨ file = some FileContent.malformed) →
      check_config_changes file s = s) ∧
    (∀ c, file = some (FileContent.validConfig c) →
      (c ≠ s.config → (check_config_changes file s).config = c) ∧
      (c = s.config → check_config_changes file s = s)) := by
  constructor
  · rintro (rfl | rfl) <;> rfl
  · rintro c rfl
    constructor
    · intro hne
      simp [check_config_changes, hne, start_monitoring, stop_monitoring]
      cases s.is_monitoring <;> simp
    · rintro rfl
      simp [check_config_changes]

/-- Witness for C5: a malformed read leaves the fresh controller unchanged, and a
read of a different valid configuration is adopted. -/
theorem check_config_changes_spec_witness :
    check_config_changes (some FileContent.malformed) freshApp = freshApp ∧
    (check_config_changes (some (FileContent.validConfig cfgB)) freshApp).config = cfgB :=
  ⟨(check_config_changes_spec (some FileContent.malformed) freshApp).1 (Or.inr rfl),
   ((check_config_changes_spec (some (FileContent.validConfig cfgB)) freshApp).2
      cfgB rfl).1 (by decide)⟩

/-- C8: post-processing is invoked if and only if the analysis result is present
and carries a non-empty `research_summary`; for every absent result or result
without such a summary, no post-processing occurs. -/
theorem process_screenshot_analysis_iff (ar : Option AnalysisResult) :
    process_screenshot_analysis ar = true ↔
      ∃ r s, ar = some r ∧ r.research_summary = some s ∧ s ≠ "" := by
  cases ar with
  | none => simp [process_screenshot_analysis]
  | some r =>
    cases h : r.research_summary with
    | none => simp [process_screenshot_analysis, summaryTruthy, h]
    | some str => simp [process_screenshot_analysis, summaryTruthy, h]

/-- Witness for C8: a present result with the non-empty summary "x" is
post-processed. -/
theorem process_screenshot_analysis_iff_witness :
    process_screenshot_analysis (some { research_summary := some "x" }) = true :=
  (process_screenshot_analysis_iff (some { research_summary := some "x" })).2
    ⟨{ research_summary := some "x" }, "x", rfl, rfl, by decide⟩

/-- C9: the daily log path is keyed by the current calendar date (same date, same
path; different date, different path, the path construction being injective in the
date); on first access of a day whose file is absent the file is initialized to the
empty JSON list, no other path is touched, and if the file already exists the whole
file system is left unchanged. -/
theorem get_current_log_path_spec (log_dir today : String)
    (fs : String → Option String) :
    (get_current_log_path log_dir today fs).1 = log_path log_dir today ∧
    (fs (log_path log_dir today) = none →
      (get_current_log_path log_dir today fs).2 (log_path log_dir today) =
        some emptyLogJson) ∧
    (∀ content, fs (log_path log_dir today) = some content →
      (get_current_log_path log_dir today fs).2 = fs) ∧
    (∀ q, q ≠ log_path log_dir today →
      (get_current_log_path log_dir today fs).2 q = fs q) ∧
    (∀ d2, log_path log_dir today = log_path log_dir d2 ↔ today = d2) := by
  refine ⟨?_, ?_, ?_, ?_, ?_⟩
  · simp only [get_current_log_path]
    cases h : fs (log_path log_dir today) <;> simp [h]
  · intro h
    simp [get_current_log_path, h]
  · intro content h
    simp [get_current_log_path, h]
  · intro q hq
    simp only [get_current_log_path]
    cases h : fs (log_path log_dir today) <;> simp [h, hq]
  · intro d2
    constructor
    · intro h
      have h2 := congrArg String.data h
      simp [log_path, String.data_append] at h2
      exact String.ext h2
    · intro h; rw [h]

/-- Witness for C9: on an empty file system, the log path for 20260101 is created
holding the empty JSON list, and the path for a different date is different. -/
theorem get_current_log_path_spec_witness :
    (get_current_log_path "logs" "20260101" (fun _ => none)).2
        (log_path "logs" "20260101") = some emptyLogJson ∧
    ¬ (log_path "logs" "20260101" = log_path "logs" "20260102") := by
  have h := get_current_log_path_spec "logs" "20260101" (fun _ => none)
  refine ⟨h.2.1 rfl, fun heq => ?_⟩
  have := (h.2.2.2.2 "20260102").1 heq
  simp at this

/-- Counterexample to C1: with the structurally different configurations `cfgA`
and `cfgB`, the concrete interleaving `driftTrace` — a drift poll restarting while
the monitoring thread launched by Start is inside its interval sleep — reaches a
state in which two background-cycle threads are simultaneously in their work step
(and the new configuration has been adopted), so the restart is not serialized
against the running cycle. -/
theorem drift_restart_race_counterexample :
    cfgA ≠ cfgB ∧
    (run driftTrace freshApp).config = cfgB ∧
    workingCount (run driftTrace freshApp) = 2 ∧
    activeCount (run driftTrace freshApp) = 2 := by decide

/-- C1 as amended: for structurally different configurations, the drift poll while
Running does adopt the new configuration and performs stop-then-start, launching
exactly one new background-cycle thread with the active title and flag set; but
the restart is unserialized: when the previously launched cycle is inside its
interval sleep across the restart, there is a continuation schedule in which both
that cycle and the newly launched one are simultaneously in their work step. -/
theorem drift_restart_unserialized (c1 c2 : Config) (h : c1 ≠ c2) :
    (check_config_changes (some (FileContent.validConfig c2))
        { is_monitoring := true, title := activeTitle, config := c1,
          cycles := [CyclePhase.sleeping] }) =
      { is_monitoring := true, title := activeTitle, config := c2,
        cycles := [CyclePhase.sleeping, CyclePhase.atCheck] } ∧
    workingCount
      (run [SysAction.cycle 1, SysAction.cycle 0, SysAction.cycle 1]
        { is_monitoring := true, title := activeTitle, config := c2,
          cycles := [CyclePhase.sleeping, CyclePhase.atCheck] }) = 2 := by
  have hne : c2 ≠ c1 := fun e => h e.symm
  constructor
  · simp [check_config_changes, hne, start_monitoring, stop_monitoring]
  · simp [run, sysStep, cycleStep, workingCount, List.set]

/-- Witness for the amended C1, at the concrete pair `cfgA ≠ cfgB`. -/
theorem drift_restart_unserialized_witness :
    (check_config_changes (some (FileContent.validConfig cfgB))
        { is_monitoring := true, title := activeTitle, config := cfgA,
          cycles := [CyclePhase.sleeping] }).cycles =
      [CyclePhase.sleeping, CyclePhase.atCheck] := by
  rw [(drift_restart_unserialized cfgA cfgB (by decide)).1]

/-- Counterexample to C6: with interval 60 and a stop requested at time 1, the
background cycle (whose sleep is a plain blocking sleep, re-checked only at wake)
terminates exactly at time 60 — after the full remaining interval, not within a
small bounded delay. -/
theorem stop_latency_counterexample :
    loopTermination 10 60 1 0 = some 60 ∧ ¬ (60 : Nat) ≤ 1 + 5 := by decide

/-- C6 as amended: a stop requested at `stopAt` during the cycle's sleep is
observed only at a wake/loop-top boundary: whenever the loop (entered at a time
less than one interval past the stop) terminates, it terminates no earlier than
the stop request and strictly within one full interval after it — the delay can be
as large as a full interval, and the sleep is not interruptible. -/
theorem loopTermination_wake_bound (fuel interval stopAt t r : Nat)
    (hbound : t < stopAt + interval)
    (hr : loopTermination fuel interval stopAt t = some r) :
    stopAt ≤ r ∧ r < stopAt + interval := by
  induction fuel generalizing t with
  | zero => simp [loopTermination] at hr
  | succ n ih =>
    by_cases hst : stopAt ≤ t
    · simp [loopTermination, hst] at hr
      exact ⟨hr ▸ hst, hr ▸ hbound⟩
    · simp [loopTermination, hst] at hr
      have ht : t < stopAt := Nat.lt_of_not_le hst
      exact ih (t + interval) (by omega) hr

/-- Witness for the amended C6: the concrete run with interval 60, stop at 1,
started at time 0, terminates at 60, which lies in [1, 61). -/
theorem loopTermination_wake_bound_witness :
    (1 : Nat) ≤ 60 ∧ (60 : Nat) < 1 + 60 :=
  loopTermination_wake_bound 10 60 1 0 60 (by decide) (by decide)

/-- Counterexample to C7: with the controller Running (active title), a successful
one-off analyze restores the title to the idle indicator, not to the active
indicator recomputed from the monitoring state — and on the raising path the busy
title is never cleared. -/
theorem analyze_restore_counterexample :
    (take_screenshot_and_analyze
        { is_monitoring := true, title := activeTitle, config := cfgA,
          cycles := [CyclePhase.sleeping] }
        (AnalysisOutcome.ok none)).1.title = idleTitle ∧
    idleTitle ≠ activeTitle ∧
    (take_screenshot_and_analyze
        { is_monitoring := true, title := activeTitle, config := cfgA,
          cycles := [CyclePhase.sleeping] }
        AnalysisOutcome.raised).1.title = analyzingTitle := by decide

/-- C7 as amended: the one-off analyze action is permitted in every monitoring
state (the function is total and leaves the monitoring state and configuration
untouched); it sets the busy indicator and performs exactly one
capture→analyze→post-process sequence; when the analysis returns, it
post-processes exactly when the result carries a truthy summary and then sets the
title unconditionally to the idle indicator (not recomputed from the monitoring
state); when the analysis raises, no post-processing happens and the busy
indicator is left in place (there is no error-path restore). -/
theorem take_screenshot_and_analyze_spec (s : AppState) (outcome : AnalysisOutcome) :
    (take_screenshot_and_analyze s outcome).2.busyTitle = analyzingTitle ∧
    (take_screenshot_and_analyze s outcome).2.captures = 1 ∧
    (take_screenshot_and_analyze s outcome).1.is_monitoring = s.is_monitoring ∧
    (take_screenshot_and_analyze s outcome).1.config = s.config ∧
    (∀ r, outcome = AnalysisOutcome.ok r →
      (take_screenshot_and_analyze s outcome).1.title = idleTitle ∧
      (take_screenshot_and_analyze s outcome).2.postProcessed =
        process_screenshot_analysis r) ∧
    (outcome = AnalysisOutcome.raised →
      (take_screenshot_and_analyze s outcome).1.title = analyzingTitle ∧
      (take_screenshot_and_analyze s outcome).2.postProcessed = false) := by
  cases outcome with
  | raised => simp [take_screenshot_and_analyze]
  | ok r =>
    cases r with
    | none => simp [take_screenshot_and_analyze, process_screenshot_analysis]
    | some res => simp [take_screenshot_and_analyze, process_screenshot_analysis]

/-- Witness for the amended C7: on the fresh controller, a successful analyze of a
result with no summary does not post-process and ends on the idle title. -/
theorem take_screenshot_and_analyze_spec_witness :
    (take_screenshot_and_analyze freshApp (AnalysisOutcome.ok none)).1.title =
      idleTitle ∧
    (take_screenshot_and_analyze freshApp (AnalysisOutcome.ok none)).2.postProcessed =
      process_screenshot_analysis none := by
  have h := (take_screenshot_and_analyze_spec freshApp
    (AnalysisOutcome.ok none)).2.2.2.2.1 none rfl
  exact h

end Meadow
